import Mathlib

/-!
Verification of the tile-grid indexing engine of `tilematrix`
(`src/tilematrix/_tilepyramid.py`), shallowly embedded in Lean 4.

Numeric values computed by the Python code are modelled as exact
rationals (`Rat`); Python's `round(x, n)` (round-half-to-even to `n`
decimal places) is modelled by `pyRound`.  Fallible operations return
`Except TMError`.  Parts of the repository that are imported by
`_tilepyramid.py` but whose source files are not available
(`_conf.py`, `_funcs.py`, `_grid.py`, `_tile.py`) are modelled from the
specification; each such definition carries a doc comment starting with
`Modelled from the spec:`.
-/

deriving instance DecidableEq for Except

attribute [local semireducible] Rat.add Rat.sub Rat.mul Rat.inv

namespace Tilematrix

/-- Floor of a rational number as an integer. -/
def ratFloor (q : Rat) : Int := q.num.fdiv (q.den : Int)

/-- Ceiling of a rational number as an integer (`math.ceil`). -/
def ratCeil (q : Rat) : Int := -(ratFloor (-q))

/-- Round a rational to the nearest integer, ties to even
(Python's `round` tie-breaking). -/
def bankersRound (q : Rat) : Int :=
  let f := ratFloor q
  let frac := q - (f : Rat)
  if frac < 1/2 then f
  else if 1/2 < frac then f + 1
  else if f % 2 = 0 then f else f + 1

/-- Python's `round(x, n)`: round to `n` decimal places, ties to even. -/
def pyRound (x : Rat) (n : Nat) : Rat :=
  ((bankersRound (x * (10 : Rat) ^ n) : Rat)) / (10 : Rat) ^ n

/-- Modelled from the spec: the fixed rounding precision `ROUND` from
`_conf.py` (file not in src); the spec only calls it "the fixed rounding
precision `ROUND`", the repository uses 20 decimal places. -/
def ROUND : Nat := 20

/-- The error kinds surfaced by the core (spec section 7).  In the Python
source all of them are raised as `ValueError`/`TypeError`; the spec names
them individually. -/
inductive TMError where
  | constructionError
  | invalidZoom
  | invalidArgument
  | outOfBounds
  | invalidGeometry
deriving DecidableEq, Repr

/-- The `Shape`: `(height, width)` integer counts of base-zoom matrix cells. -/
structure Shape where
  height : Nat
  width : Nat
deriving DecidableEq, Repr

/-- The `Bounds`: `(left, bottom, right, top)` coordinate values. -/
structure Bounds where
  left : Rat
  bottom : Rat
  right : Rat
  top : Rat
deriving DecidableEq, Repr

/-- Grid type tag. -/
inductive GridType where
  | geodetic
  | mercator
  | custom
deriving DecidableEq, Repr

/-- Modelled from the spec: `GridDefinition` from `_grid.py` (file not in
src): `{crs, bounds, shape, is_global, type}`, a finished validated value. -/
structure GridDefinition where
  crs : String
  bounds : Bounds
  shape : Shape
  is_global : Bool
  gtype : GridType
deriving DecidableEq, Repr

/-- Modelled from the spec: the `GridDefinition` construction invariant
from `_grid.py` (file not in src): "`bounds` aspect ratio must equal
`shape` aspect ratio within the fixed rounding precision `ROUND`". -/
def GridDefinition.aspectOk (g : GridDefinition) : Bool :=
  pyRound ((g.bounds.right - g.bounds.left) / (g.bounds.top - g.bounds.bottom)) ROUND
    = pyRound ((g.shape.width : Rat) / (g.shape.height : Rat)) ROUND

/-- The value passed as the `grid` argument of `TilePyramid.__init__`:
either an already-constructed `GridDefinition` or its dictionary
representation (both carry the same field data). -/
inductive GridInput where
  | grid (g : GridDefinition)
  | dict (g : GridDefinition)
deriving DecidableEq, Repr

/-- Modelled from the spec: `GridDefinition(grid)` construction from
`_grid.py` (file not in src): accepts a grid or its dictionary and
validates the bounds/shape aspect-ratio invariant, failing construction
on violation. -/
def GridDefinition.ofInput (gi : GridInput) : Except TMError GridDefinition :=
  match gi with
  | .grid g => if g.aspectOk then .ok g else .error .constructionError
  | .dict g => if g.aspectOk then .ok g else .error .constructionError

/-- Modelled from the spec: `GridDefinition.to_dict` from `_grid.py`
(file not in src): dictionary export of the grid configuration. -/
def GridDefinition.to_dict (g : GridDefinition) : GridInput := .dict g

/-- A `TilePyramid` as laid out by `TilePyramid.__init__` (lines 32-50 of
`_tilepyramid.py`): the grid plus the fields the constructor computes and
stores. -/
structure TilePyramid where
  grid : GridDefinition
  bounds : Bounds
  is_global : Bool
  metatiling : Nat
  tile_size : Nat
  metatile_size : Nat
  x_size : Rat
  y_size : Rat
deriving DecidableEq, Repr

/-- The `self.left` as stored by `__init__` (unpacked from `self.bounds`). -/
def TilePyramid.left (tp : TilePyramid) : Rat := tp.bounds.left

/-- The `self.bottom` as stored by `__init__`. -/
def TilePyramid.bottom (tp : TilePyramid) : Rat := tp.bounds.bottom

/-- The `self.right` as stored by `__init__`. -/
def TilePyramid.right (tp : TilePyramid) : Rat := tp.bounds.right

/-- The `self.top` as stored by `__init__`. -/
def TilePyramid.top (tp : TilePyramid) : Rat := tp.bounds.top

/-- The `TilePyramid.__init__(grid=None, tile_size=256, metatiling=1)`
(lines 32-50): fails when `grid` is `None` or `metatiling` is not one of
1, 2, 4, 8, 16; otherwise builds the grid from the input and computes the
derived fields. -/
def TilePyramid.init (grid : Option GridInput) (tile_size : Nat)
    (metatiling : Nat) : Except TMError TilePyramid := do
  match grid with
  | none => .error .constructionError
  | some gi =>
    if metatiling = 1 ∨ metatiling = 2 ∨ metatiling = 4 ∨ metatiling = 8 ∨
        metatiling = 16 then
      let g ← GridDefinition.ofInput gi
      .ok {
        grid := g
        bounds := g.bounds
        is_global := g.is_global
        metatiling := metatiling
        tile_size := tile_size
        metatile_size := tile_size * metatiling
        x_size := pyRound (g.bounds.right - g.bounds.left) ROUND
        y_size := pyRound (g.bounds.top - g.bounds.bottom) ROUND
      }
    else
      .error .constructionError

/-- Modelled from the spec: `validate_zoom` from `_funcs.py` (file not in
src): "Fails with `InvalidZoom` if zoom is negative or non-integer."  The
zoom argument is modelled as a rational so that non-integer inputs are
representable. -/
def validate_zoom (zoom : Rat) : Except TMError Unit :=
  if zoom < 0 ∨ zoom.den ≠ 1 then .error .invalidZoom else .ok ()

/-- The natural-number value of a validated zoom. -/
def zoomNat (zoom : Rat) : Nat := zoom.num.toNat

/-- The `TilePyramid.matrix_width(zoom)` (lines 72-81):
`int(math.ceil(shape.width * 2**zoom / metatiling))`, clamped below by 1. -/
def TilePyramid.matrix_width (tp : TilePyramid) (zoom : Rat) :
    Except TMError Int := do
  validate_zoom zoom
  let width : Int :=
    ratCeil ((tp.grid.shape.width : Rat) * 2 ^ zoomNat zoom / (tp.metatiling : Rat))
  return if width < 1 then 1 else width

/-- The `TilePyramid.matrix_height(zoom)` (lines 83-92). -/
def TilePyramid.matrix_height (tp : TilePyramid) (zoom : Rat) :
    Except TMError Int := do
  validate_zoom zoom
  let height : Int :=
    ratCeil ((tp.grid.shape.height : Rat) * 2 ^ zoomNat zoom / (tp.metatiling : Rat))
  return if height < 1 then 1 else height

/-- The `TilePyramid.tile_x_size(zoom)` (lines 94-101):
`round(self.x_size / self.matrix_width(zoom), ROUND)`. -/
def TilePyramid.tile_x_size (tp : TilePyramid) (zoom : Rat) :
    Except TMError Rat := do
  validate_zoom zoom
  let mw ← tp.matrix_width zoom
  return pyRound (tp.x_size / (mw : Rat)) ROUND

/-- The `TilePyramid.tile_y_size(zoom)` (lines 103-110). -/
def TilePyramid.tile_y_size (tp : TilePyramid) (zoom : Rat) :
    Except TMError Rat := do
  validate_zoom zoom
  let mh ← tp.matrix_height zoom
  return pyRound (tp.y_size / (mh : Rat)) ROUND

/-- The `TilePyramid.tile_width(zoom)` (lines 112-121):
`matrix_pixel = 2**zoom * tile_size * shape.width`,
`tile_pixel = tile_size * metatiling`, returning `matrix_pixel` when
`tile_pixel > matrix_pixel` and `tile_pixel` otherwise. -/
def TilePyramid.tile_width (tp : TilePyramid) (zoom : Rat) :
    Except TMError Nat := do
  validate_zoom zoom
  let matrix_pixel := 2 ^ zoomNat zoom * tp.tile_size * tp.grid.shape.width
  let tile_pixel := tp.tile_size * tp.metatiling
  return if tile_pixel > matrix_pixel then matrix_pixel else tile_pixel

/-- The `TilePyramid.tile_height(zoom)` (lines 123-132). -/
def TilePyramid.tile_height (tp : TilePyramid) (zoom : Rat) :
    Except TMError Nat := do
  validate_zoom zoom
  let matrix_pixel := 2 ^ zoomNat zoom * tp.tile_size * tp.grid.shape.height
  let tile_pixel := tp.tile_size * tp.metatiling
  return if tile_pixel > matrix_pixel then matrix_pixel else tile_pixel

/-- The `TilePyramid.pixel_x_size(zoom)` (lines 134-142):
`round(tile_x_size(zoom) / tile_width(zoom), ROUND)`. -/
def TilePyramid.pixel_x_size (tp : TilePyramid) (zoom : Rat) :
    Except TMError Rat := do
  validate_zoom zoom
  let txs ← tp.tile_x_size zoom
  let tw ← tp.tile_width zoom
  return pyRound (txs / (tw : Rat)) ROUND

/-- The `TilePyramid.pixel_y_size(zoom)` (lines 144-152). -/
def TilePyramid.pixel_y_size (tp : TilePyramid) (zoom : Rat) :
    Except TMError Rat := do
  validate_zoom zoom
  let tys ← tp.tile_y_size zoom
  let th ← tp.tile_height zoom
  return pyRound (tys / (th : Rat)) ROUND

/-- Modelled from the spec: the `Tile` entity from `_tile.py` (file not
in src): "`{pyramid: &TilePyramid, zoom, row, col}`; `id = (zoom,row,col)`
is the identity used for equality"; two tiles from different pyramids
with the same id are not equal. -/
structure Tile where
  pyramid : TilePyramid
  zoom : Nat
  row : Int
  col : Int
deriving DecidableEq, Repr

/-- Modelled from the spec: the column index chosen by `_tile_from_xy`
from `_funcs.py` (file not in src): the raw column is the inverse
tile-size division `(x - left) / tile_x_size`; a point exactly on a
shared edge belongs to the tile starting there for edge policy `r`
(right) and to the one before it for `l` (left); the index is kept
inside the matrix range. -/
def edgeIndex (raw : Rat) (usePositiveSide : Bool) (matrixDim : Int) : Int :=
  let f := ratFloor raw
  let i := if raw = (f : Rat) ∧ ¬usePositiveSide then f - 1 else f
  min (matrixDim - 1) (max 0 i)

/-- Modelled from the spec: `_tile_from_xy` from `_funcs.py` (file not in
src): "Computes the raw `(row, col)` via inverse tile-size division from
the grid origin" (top-left convention), "then resolves exact-boundary
ties using `on_edge_use`": `rb` right/bottom, and `rt`, `lt`, `lb`
analogously. -/
def tileFromXYRaw (tp : TilePyramid) (x y : Rat) (zoom : Rat)
    (on_edge_use : String) : Except TMError Tile := do
  let mw ← tp.matrix_width zoom
  let mh ← tp.matrix_height zoom
  let txs ← tp.tile_x_size zoom
  let tys ← tp.tile_y_size zoom
  let useRight := on_edge_use = "rb" ∨ on_edge_use = "rt"
  let useBottom := on_edge_use = "rb" ∨ on_edge_use = "lb"
  let col := edgeIndex ((x - tp.left) / txs) useRight mw
  let row := edgeIndex ((tp.top - y) / tys) useBottom mh
  return ⟨tp, zoomNat zoom, row, col⟩

/-- The `TilePyramid.tile_from_xy(x, y, zoom, on_edge_use="rb")`
(lines 225-243): validates zoom, then raises when the point lies outside
the grid bounds, then raises when `on_edge_use` is not one of
`lb, rb, rt, lt`, and otherwise delegates to `_tile_from_xy`. -/
def TilePyramid.tile_from_xy (tp : TilePyramid) (x y : Rat) (zoom : Rat)
    (on_edge_use : String) : Except TMError Tile := do
  validate_zoom zoom
  if x < tp.left ∨ x > tp.right ∨ y < tp.bottom ∨ y > tp.top then
    .error .outOfBounds
  else if ¬ (on_edge_use = "lb" ∨ on_edge_use = "rb" ∨ on_edge_use = "rt" ∨
      on_edge_use = "lt") then
    .error .invalidArgument
  else
    tileFromXYRaw tp x y zoom on_edge_use

/-- Row-major enumeration of the tiles with `rmin ≤ row ≤ rmax` and
`cmin ≤ col ≤ cmax`. -/
def tileRange (tp : TilePyramid) (zoom : Nat) (rmin rmax cmin cmax : Int) :
    List Tile :=
  ((List.range (rmax + 1 - rmin).toNat).map (fun i => rmin + (i : Int))).flatMap
    (fun r => ((List.range (cmax + 1 - cmin).toNat).map
      (fun j => cmin + (j : Int))).map (fun c => ⟨tp, zoom, r, c⟩))

/-- Modelled from the spec: `_tiles_from_cleaned_bounds` from `_funcs.py`
(file not in src): "first intersects the query bounds with the pyramid's
own bounds (empty result if disjoint); then computes integer row/col
ranges via the same inverse-size mapping and enumerates the Cartesian
product, in row-major order". -/
def tilesFromCleanedBounds (tp : TilePyramid) (b : Bounds) (zoom : Rat) :
    Except TMError (List Tile) := do
  let mw ← tp.matrix_width zoom
  let mh ← tp.matrix_height zoom
  let txs ← tp.tile_x_size zoom
  let tys ← tp.tile_y_size zoom
  let l := max b.left tp.left
  let r := min b.right tp.right
  let bo := max b.bottom tp.bottom
  let t := min b.top tp.top
  if r ≤ l ∨ t ≤ bo then
    return []
  else
    let cmin := min (mw - 1) (max 0 (ratFloor ((l - tp.left) / txs)))
    let cmax := min (mw - 1) (max 0 (ratCeil ((r - tp.left) / txs) - 1))
    let rmin := min (mh - 1) (max 0 (ratFloor ((tp.top - t) / tys)))
    let rmax := min (mh - 1) (max 0 (ratCeil ((tp.top - bo) / tys) - 1))
    return tileRange tp (zoomNat zoom) rmin rmax cmin cmax

/-- Modelled from the spec: `_global_tiles_from_bounds` from `_funcs.py`
(file not in src): "handles bounds that may wrap the antimeridian …
Splits the query bounds into one or two non-wrapping segments …
enumerates the Cartesian product, deduplicating tiles that fall in both
segments at the seam". -/
def globalTilesFromBounds (tp : TilePyramid) (b : Bounds) (zoom : Rat) :
    Except TMError (List Tile) := do
  if b.left ≤ b.right then
    tilesFromCleanedBounds tp b zoom
  else
    let first ← tilesFromCleanedBounds tp ⟨b.left, b.bottom, tp.right, b.top⟩ zoom
    let second ← tilesFromCleanedBounds tp ⟨tp.left, b.bottom, b.right, b.top⟩ zoom
    return first ++ second.filter (fun t => ¬ first.contains t)

/-- The Python value passed as the `bounds` argument of
`tiles_from_bounds`: either a tuple of numbers or a value of some other
type (which the `isinstance` check rejects). -/
inductive BoundsArg where
  | tuple (vs : List Rat)
  | notATuple
deriving DecidableEq, Repr

/-- The `TilePyramid.tiles_from_bounds(bounds, zoom)` (lines 165-186):
validates zoom, requires `bounds` to be a tuple of exactly 4 values, and
dispatches on `is_global` to the global or the cleaned sweep. -/
def TilePyramid.tiles_from_bounds (tp : TilePyramid) (bounds : BoundsArg)
    (zoom : Rat) : Except TMError (List Tile) := do
  validate_zoom zoom
  match bounds with
  | .notATuple => .error .invalidArgument
  | .tuple vs =>
    if vs.length = 4 then
      let b : Bounds := ⟨vs[0]!, vs[1]!, vs[2]!, vs[3]!⟩
      if tp.is_global then
        globalTilesFromBounds tp b zoom
      else
        tilesFromCleanedBounds tp b zoom
    else
      .error .invalidArgument

/-- The kind of a shapely geometry, as dispatched on by `tiles_from_geom`
via the `geom_type` string: point and multi-point kinds carry their
coordinates, every other kind carries its `geom_type` string. -/
inductive GeomKind where
  | point (x y : Rat)
  | multiPoint (pts : List (Rat × Rat))
  | other (geom_type : String)

/-- The external shapely geometry capability consumed by
`tiles_from_geom` (spec section 6): kind, emptiness and validity flags,
bounding box, and the prepared-intersection test against a tile's bbox
(the composition of "clip to extent", "prepare" and `intersects`). -/
structure Geometry where
  kind : GeomKind
  isEmpty : Bool
  isValid : Bool
  boundsOf : Bounds
  intersectsTile : Tile → Bool

/-- The `TilePyramid.tiles_from_bbox(geometry, zoom)` (lines 188-196):
`tiles_from_bounds(geometry.bounds, zoom)`. -/
def TilePyramid.tiles_from_bbox (tp : TilePyramid) (g : Geometry)
    (zoom : Rat) : Except TMError (List Tile) := do
  validate_zoom zoom
  tp.tiles_from_bounds
    (.tuple [g.boundsOf.left, g.boundsOf.bottom, g.boundsOf.right, g.boundsOf.top])
    zoom

/-- The `TilePyramid.tiles_from_geom(geometry, zoom)` (lines 198-223):
validates zoom; yields nothing for an empty geometry; raises for an
invalid one; dispatches Point to `tile_from_xy`, MultiPoint to one
`tile_from_xy` per point, the five area/collection kinds to the
bbox prefilter filtered by prepared intersection, and any other kind
falls through yielding nothing. -/
def TilePyramid.tiles_from_geom (tp : TilePyramid) (g : Geometry)
    (zoom : Rat) : Except TMError (List Tile) := do
  validate_zoom zoom
  if g.isEmpty then
    return []
  else if ¬ g.isValid then
    .error .invalidGeometry
  else
    match g.kind with
    | .point x y => do
      let t ← tp.tile_from_xy x y zoom "rb"
      return [t]
    | .multiPoint pts =>
      pts.mapM (fun p => tp.tile_from_xy p.1 p.2 zoom "rb")
    | .other s =>
      if s = "LineString" ∨ s = "MultiLineString" ∨ s = "Polygon" ∨
          s = "MultiPolygon" ∨ s = "GeometryCollection" then do
        let ts ← tp.tiles_from_bbox g zoom
        return ts.filter g.intersectsTile
      else
        return []

/-- The `TilePyramid.to_dict` (lines 245-253): the dictionary
`{grid: grid.to_dict(), metatiling, tile_size}`. -/
structure PyramidConfig where
  grid : GridInput
  metatiling : Nat
  tile_size : Nat
deriving DecidableEq, Repr

/-- The `TilePyramid.to_dict` (lines 245-253). -/
def TilePyramid.to_dict (tp : TilePyramid) : PyramidConfig :=
  ⟨tp.grid.to_dict, tp.metatiling, tp.tile_size⟩

/-- The `TilePyramid.from_dict(config_dict)` (lines 255-259):
`TilePyramid(**config_dict)`. -/
def TilePyramid.from_dict (c : PyramidConfig) : Except TMError TilePyramid :=
  TilePyramid.init (some c.grid) c.tile_size c.metatiling

/-- The `TilePyramid.__eq__` (lines 261-267): structural over
`(grid, tile_size, metatiling)`. -/
def TilePyramid.eq (a b : TilePyramid) : Bool :=
  a.grid == b.grid && a.tile_size == b.tile_size && a.metatiling == b.metatiling

/-- Modelled from the spec: the string representation of a
`GridDefinition` from `_grid.py` (file not in src), a deterministic
non-empty rendering of its fields. -/
def GridDefinition.reprStr (g : GridDefinition) : String :=
  "GridDefinition(" ++ g.crs ++ ", " ++ toString g.shape.height ++ ", " ++
    toString g.shape.width ++ ")"

/-- The `TilePyramid.__repr__` (lines 272-275):
`'TilePyramid(%s, tile_size=%s, metatiling=%s)'`. -/
def TilePyramid.reprStr (tp : TilePyramid) : String :=
  "TilePyramid(" ++ tp.grid.reprStr ++ ", tile_size=" ++
    toString tp.tile_size ++ ", metatiling=" ++ toString tp.metatiling ++ ")"

/-- The `TilePyramid.__hash__` (lines 277-278):
`hash(repr(self) + repr(self.grid))`; Python's string hash is modelled by
a fixed deterministic hash function on strings. -/
def TilePyramid.pyHash (tp : TilePyramid) : UInt64 :=
  (tp.reprStr ++ tp.grid.reprStr).hash

/-- The spec's formula for the matrix width:
`max(1, ceil(shape.width * 2^zoom / metatiling))`. -/
def matrixWidthSpec (tp : TilePyramid) (z : Nat) : Int :=
  max 1 (ratCeil ((tp.grid.shape.width : Rat) * 2 ^ z / (tp.metatiling : Rat)))

/-- The spec's formula for the matrix height. -/
def matrixHeightSpec (tp : TilePyramid) (z : Nat) : Int :=
  max 1 (ratCeil ((tp.grid.shape.height : Rat) * 2 ^ z / (tp.metatiling : Rat)))

/-- A small concrete 1x1 grid over a 4x4-unit square, used to instantiate
the theorems. -/
def gUnit : GridDefinition :=
  ⟨"EPSG:4326", ⟨0, 0, 4, 4⟩, ⟨1, 1⟩, false, .custom⟩

/-- The pyramid `TilePyramid(gUnit, 256, 1)` as built by the constructor. -/
def tpUnit : TilePyramid :=
  ⟨gUnit, gUnit.bounds, false, 1, 256, 256, 4, 4⟩

/-- The irregular conformal grid of the repository's own test
`test_irregular_grids`: base shape `(161, 315)` with 10-unit square
source pixels (so the extent is `315*256*10` by `161*256*10` units). -/
def gIrr : GridDefinition :=
  ⟨"custom", ⟨0, 0, 806400, 412160⟩, ⟨161, 315⟩, false, .custom⟩

/-- The pyramid `TilePyramid(gIrr, 256, metatiling=2)` as built by the
constructor. -/
def tpIrr2 : TilePyramid :=
  ⟨gIrr, gIrr.bounds, false, 2, 256, 512, 806400, 412160⟩

/-- The zoom-0 origin tile of `tpUnit`. -/
def tileUnit00 : Tile := ⟨tpUnit, 0, 0, 0⟩

/-- A concrete two-point MultiPoint geometry (both points at `(1,1)`). -/
def gMPt : Geometry :=
  ⟨.multiPoint [(1, 1), (1, 1)], false, true, ⟨1, 1, 1, 1⟩, fun _ => false⟩

/-- A concrete valid, non-empty geometry of a kind `tiles_from_geom` does
not dispatch on (a `LinearRing`). -/
def gRing : Geometry :=
  ⟨.other "LinearRing", false, true, ⟨0, 0, 1, 1⟩, fun _ => false⟩

theorem exc_bind_ok {α β : Type} (a : α) (f : α → Except TMError β) :
    (Except.ok a >>= f) = f a := rfl

theorem exc_bind_err {α β : Type} (e : TMError) (f : α → Except TMError β) :
    ((Except.error e : Except TMError α) >>= f) = .error e := rfl

theorem exc_pure {α : Type} (a : α) : (pure a : Except TMError α) = .ok a := rfl

theorem validate_zoom_natCast (z : Nat) : validate_zoom (z : Rat) = .ok () := by
  have h1 : ¬((z : Rat) < 0) := not_lt.mpr (by positivity)
  have h2 : ((z : Rat)).den = 1 := Rat.den_natCast z
  simp [validate_zoom, h1, h2]

theorem validate_zoom_invalid (zq : Rat) (h : zq < 0 ∨ zq.den ≠ 1) :
    validate_zoom zq = .error .invalidZoom := by
  simp only [validate_zoom, if_pos h]

theorem zoomNat_natCast (z : Nat) : zoomNat ((z : Nat) : Rat) = z := by
  simp [zoomNat, Rat.num_natCast]

theorem ite_lt_one_max (w : Int) : (if w < 1 then 1 else w) = max 1 w := by
  rcases lt_or_le w 1 with h | h
  · rw [if_pos h]; omega
  · rw [if_neg (not_lt.mpr h)]; omega

theorem ite_gt_min (a b : Nat) : (if a > b then b else a) = min a b := by
  rcases Nat.lt_or_ge b a with h | h
  · rw [if_pos h]; omega
  · rw [if_neg (Nat.not_lt.mpr h)]; omega

theorem matrix_width_natCast (tp : TilePyramid) (z : Nat) :
    tp.matrix_width (z : Rat) = .ok (matrixWidthSpec tp z) := by
  simp only [TilePyramid.matrix_width, validate_zoom_natCast, exc_bind_ok,
    zoomNat_natCast, exc_pure, ite_lt_one_max, matrixWidthSpec]

theorem matrix_height_natCast (tp : TilePyramid) (z : Nat) :
    tp.matrix_height (z : Rat) = .ok (matrixHeightSpec tp z) := by
  simp only [TilePyramid.matrix_height, validate_zoom_natCast, exc_bind_ok,
    zoomNat_natCast, exc_pure, ite_lt_one_max, matrixHeightSpec]

theorem matrix_width_invalid_zoom (tp : TilePyramid) (zq : Rat)
    (h : zq < 0 ∨ zq.den ≠ 1) :
    tp.matrix_width zq = .error .invalidZoom := by
  simp only [TilePyramid.matrix_width, validate_zoom_invalid zq h, exc_bind_err]

theorem matrix_height_invalid_zoom (tp : TilePyramid) (zq : Rat)
    (h : zq < 0 ∨ zq.den ≠ 1) :
    tp.matrix_height zq = .error .invalidZoom := by
  simp only [TilePyramid.matrix_height, validate_zoom_invalid zq h, exc_bind_err]

/-- C1: for every TilePyramid and every non-negative integer zoom,
`matrix_width` and `matrix_height` equal
`max(1, ceil(shape.width_or_height * 2^zoom / metatiling))`, hence both
are at least 1; on a negative or non-integer zoom both fail with
`InvalidZoom`. -/
theorem C1_matrix_dims_spec (tp : TilePyramid) (z : Nat) :
    tp.matrix_width (z : Rat) = .ok (matrixWidthSpec tp z) ∧
    tp.matrix_height (z : Rat) = .ok (matrixHeightSpec tp z) ∧
    (∀ w : Int, tp.matrix_width (z : Rat) = .ok w → 1 ≤ w) ∧
    (∀ h : Int, tp.matrix_height (z : Rat) = .ok h → 1 ≤ h) ∧
    (∀ zq : Rat, zq < 0 ∨ zq.den ≠ 1 →
      tp.matrix_width zq = .error .invalidZoom ∧
      tp.matrix_height zq = .error .invalidZoom) := by
  refine ⟨matrix_width_natCast tp z, matrix_height_natCast tp z, ?_, ?_, ?_⟩
  · intro w hw
    rw [matrix_width_natCast tp z] at hw
    cases hw
    exact le_max_left 1 _
  · intro h hh
    rw [matrix_height_natCast tp z] at hh
    cases hh
    exact le_max_left 1 _
  · intro zq hq
    exact ⟨matrix_width_invalid_zoom tp zq hq, matrix_height_invalid_zoom tp zq hq⟩

/-- Witness for C1 at a concrete pyramid: zoom 1 on the 1x1 grid gives a
2-wide matrix, zoom -1 is rejected. -/
theorem C1_matrix_dims_spec_witness :
    tpUnit.matrix_width ((1 : Nat) : Rat) = .ok (matrixWidthSpec tpUnit 1) ∧
    tpUnit.matrix_width (-1 : Rat) = .error .invalidZoom :=
  ⟨(C1_matrix_dims_spec tpUnit 1).1,
   ((C1_matrix_dims_spec tpUnit 1).2.2.2.2 (-1) (Or.inl (by norm_num))).1⟩

/-- C3: for every TilePyramid and every non-negative integer zoom,
`tile_width` is the minimum of `tile_size * metatiling` (the metatile
pixel size) and `2^zoom * tile_size * shape.width` (the whole matrix's
pixel extent), and analogously for `tile_height`. -/
theorem C3_tile_pixel_dims_spec (tp : TilePyramid) (z : Nat) :
    tp.tile_width (z : Rat) =
      .ok (min (tp.tile_size * tp.metatiling)
        (2 ^ z * tp.tile_size * tp.grid.shape.width)) ∧
    tp.tile_height (z : Rat) =
      .ok (min (tp.tile_size * tp.metatiling)
        (2 ^ z * tp.tile_size * tp.grid.shape.height)) := by
  constructor
  · simp only [TilePyramid.tile_width, validate_zoom_natCast, exc_bind_ok,
      zoomNat_natCast, exc_pure, ite_gt_min]
  · simp only [TilePyramid.tile_height, validate_zoom_natCast, exc_bind_ok,
      zoomNat_natCast, exc_pure, ite_gt_min]

/-- Witness for C3: at zoom 0 the 1x1 grid's metatile is capped at the
matrix pixel extent 256. -/
theorem C3_tile_pixel_dims_spec_witness :
    tpUnit.tile_width ((0 : Nat) : Rat) = .ok (min (256 * 1) (1 * 256 * 1)) :=
  (C3_tile_pixel_dims_spec tpUnit 0).1

theorem tile_x_size_natCast (tp : TilePyramid) (z : Nat) :
    tp.tile_x_size (z : Rat) =
      .ok (pyRound (tp.x_size / (matrixWidthSpec tp z : Rat)) ROUND) := by
  simp only [TilePyramid.tile_x_size, validate_zoom_natCast, exc_bind_ok,
    matrix_width_natCast, exc_pure]

theorem tile_y_size_natCast (tp : TilePyramid) (z : Nat) :
    tp.tile_y_size (z : Rat) =
      .ok (pyRound (tp.y_size / (matrixHeightSpec tp z : Rat)) ROUND) := by
  simp only [TilePyramid.tile_y_size, validate_zoom_natCast, exc_bind_ok,
    matrix_height_natCast, exc_pure]

theorem tileFromXYRaw_ok (tp : TilePyramid) (x y : Rat) (z : Nat) (e : String) :
    ∃ t : Tile, tileFromXYRaw tp x y (z : Rat) e = .ok t := by
  simp only [tileFromXYRaw, matrix_width_natCast, matrix_height_natCast,
    tile_x_size_natCast, tile_y_size_natCast, exc_bind_ok, exc_pure]
  exact ⟨_, rfl⟩

theorem tilesFromCleanedBounds_ok (tp : TilePyramid) (b : Bounds) (z : Nat) :
    ∃ ts : List Tile, tilesFromCleanedBounds tp b (z : Rat) = .ok ts := by
  simp only [tilesFromCleanedBounds, matrix_width_natCast, matrix_height_natCast,
    tile_x_size_natCast, tile_y_size_natCast, exc_bind_ok, exc_pure]
  split
  · exact ⟨_, rfl⟩
  · exact ⟨_, rfl⟩

theorem globalTilesFromBounds_ok (tp : TilePyramid) (b : Bounds) (z : Nat) :
    ∃ ts : List Tile, globalTilesFromBounds tp b (z : Rat) = .ok ts := by
  unfold globalTilesFromBounds
  split
  · exact tilesFromCleanedBounds_ok tp b z
  · obtain ⟨ts1, h1⟩ := tilesFromCleanedBounds_ok tp ⟨b.left, b.bottom, tp.right, b.top⟩ z
    obtain ⟨ts2, h2⟩ := tilesFromCleanedBounds_ok tp ⟨tp.left, b.bottom, b.right, b.top⟩ z
    rw [h1, exc_bind_ok, h2, exc_bind_ok, exc_pure]
    exact ⟨_, rfl⟩

/-- C2 (code bug): on the repository's own irregular conformal test grid
(base shape `(161, 315)`, 10-unit square source pixels) with
`metatiling = 2`, the constructed pyramid has
`pixel_x_size(0) ≠ pixel_y_size(0)` and `pixel_x_size(0) ≠ 10`, although
the grid is conformal (both source cell sizes equal 2560 units per tile,
i.e. 10 units per pixel), contradicting the repository test
`test_irregular_grids`. -/
theorem C2_conformal_pixel_size_bug :
    TilePyramid.init (some (.dict gIrr)) 256 2 = .ok tpIrr2 ∧
    decide (tpIrr2.x_size / (tpIrr2.grid.shape.width : Rat) / (tpIrr2.tile_size : Rat)
      = 10) = true ∧
    decide (tpIrr2.y_size / (tpIrr2.grid.shape.height : Rat) / (tpIrr2.tile_size : Rat)
      = 10) = true ∧
    decide (tpIrr2.pixel_x_size ((0 : Nat) : Rat)
      = tpIrr2.pixel_y_size ((0 : Nat) : Rat)) = false ∧
    decide (tpIrr2.pixel_x_size ((0 : Nat) : Rat) = .ok 10) = false := by
  refine ⟨by decide, by decide, by decide, by decide, by decide⟩

/-- C9: construction fails with a construction error when the grid is
missing or the metatiling is not one of 1, 2, 4, 8, 16; a successfully
constructed pyramid has `metatile_size = tile_size * metatiling`,
`x_size = round(right - left, ROUND)` and
`y_size = round(top - bottom, ROUND)`. -/
theorem C9_init_validation (ts m : Nat) :
    TilePyramid.init none ts m = .error .constructionError ∧
    (∀ gi : GridInput, ¬(m = 1 ∨ m = 2 ∨ m = 4 ∨ m = 8 ∨ m = 16) →
      TilePyramid.init (some gi) ts m = .error .constructionError) ∧
    (∀ (gi : GridInput) (tp : TilePyramid),
      TilePyramid.init (some gi) ts m = .ok tp →
      tp.metatile_size = tp.tile_size * tp.metatiling ∧
      tp.tile_size = ts ∧ tp.metatiling = m ∧
      tp.x_size = pyRound (tp.right - tp.left) ROUND ∧
      tp.y_size = pyRound (tp.top - tp.bottom) ROUND) := by
  refine ⟨rfl, ?_, ?_⟩
  · intro gi hm
    simp only [TilePyramid.init, if_neg hm]
  · intro gi tp h
    simp only [TilePyramid.init] at h
    split at h
    · cases hgi : GridDefinition.ofInput gi with
      | error e => rw [hgi, exc_bind_err] at h; cases h
      | ok g =>
        rw [hgi, exc_bind_ok] at h
        cases h
        exact ⟨rfl, rfl, rfl, rfl, rfl⟩
    · cases h

/-- Witness for C9: metatiling 3 is rejected, and a real construction
satisfies the derived-field equations. -/
theorem C9_init_validation_witness :
    TilePyramid.init (some (.dict gUnit)) 256 3 = .error .constructionError ∧
    tpUnit.metatile_size = tpUnit.tile_size * tpUnit.metatiling :=
  ⟨(C9_init_validation 256 3).2.1 (.dict gUnit) (by decide),
   ((C9_init_validation 256 1).2.2 (.dict gUnit) tpUnit (by decide)).1⟩

/-- C4: constructing a TilePyramid from the dictionary exported by a
successfully constructed TilePyramid yields an equal pyramid:
`from_dict(to_dict(tp)) == tp`. -/
theorem C4_from_dict_to_dict_roundtrip (gi : GridInput) (ts m : Nat)
    (tp : TilePyramid) (h : TilePyramid.init (some gi) ts m = .ok tp) :
    TilePyramid.from_dict tp.to_dict = .ok tp ∧ tp.eq tp = true := by
  constructor
  · simp only [TilePyramid.init] at h
    split at h
    case isTrue hm =>
      cases hgi : GridDefinition.ofInput gi with
      | error e => rw [hgi, exc_bind_err] at h; cases h
      | ok g =>
        rw [hgi, exc_bind_ok] at h
        cases h
        have hga : g.aspectOk = true := by
          cases gi with
          | grid g2 =>
            simp only [GridDefinition.ofInput] at hgi
            split at hgi
            · cases hgi; assumption
            · cases hgi
          | dict g2 =>
            simp only [GridDefinition.ofInput] at hgi
            split at hgi
            · cases hgi; assumption
            · cases hgi
        simp only [TilePyramid.from_dict, TilePyramid.to_dict,
          GridDefinition.to_dict, TilePyramid.init, GridDefinition.ofInput,
          hga, if_pos hm, if_true, exc_bind_ok]
    case isFalse => cases h
  · simp [TilePyramid.eq]

/-- Witness for C4: the roundtrip at the concrete 1x1 pyramid. -/
theorem C4_from_dict_to_dict_roundtrip_witness :
    TilePyramid.from_dict tpUnit.to_dict = .ok tpUnit :=
  (C4_from_dict_to_dict_roundtrip (.dict gUnit) 256 1 tpUnit (by decide)).1

/-- C5: `tile_from_xy` fails with the out-of-bounds error exactly when
the point lies outside `[left,right] x [bottom,top]`; for an in-bounds
point it fails with the invalid-argument error exactly when
`on_edge_use` is not one of lb, rb, rt, lt; for an in-bounds point and a
valid `on_edge_use` it returns exactly one tile. -/
theorem C5_tile_from_xy_spec (tp : TilePyramid) (x y : Rat) (z : Nat)
    (e : String) :
    (tp.tile_from_xy x y (z : Rat) e = .error .outOfBounds ↔
      (x < tp.left ∨ x > tp.right ∨ y < tp.bottom ∨ y > tp.top)) ∧
    (¬(x < tp.left ∨ x > tp.right ∨ y < tp.bottom ∨ y > tp.top) →
      (tp.tile_from_xy x y (z : Rat) e = .error .invalidArgument ↔
        ¬(e = "lb" ∨ e = "rb" ∨ e = "rt" ∨ e = "lt"))) ∧
    (¬(x < tp.left ∨ x > tp.right ∨ y < tp.bottom ∨ y > tp.top) →
      (e = "lb" ∨ e = "rb" ∨ e = "rt" ∨ e = "lt") →
      ∃ t : Tile, tp.tile_from_xy x y (z : Rat) e = .ok t) := by
  have base : tp.tile_from_xy x y (z : Rat) e =
      if x < tp.left ∨ x > tp.right ∨ y < tp.bottom ∨ y > tp.top then
        .error .outOfBounds
      else if ¬(e = "lb" ∨ e = "rb" ∨ e = "rt" ∨ e = "lt") then
        .error .invalidArgument
      else tileFromXYRaw tp x y (z : Rat) e := by
    simp only [TilePyramid.tile_from_xy, validate_zoom_natCast, exc_bind_ok]
  by_cases hO : x < tp.left ∨ x > tp.right ∨ y < tp.bottom ∨ y > tp.top
  · rw [base, if_pos hO]
    exact ⟨⟨fun _ => hO, fun _ => rfl⟩,
      fun hI => absurd hO hI, fun hI _ => absurd hO hI⟩
  · rw [base, if_neg hO]
    by_cases hA : e = "lb" ∨ e = "rb" ∨ e = "rt" ∨ e = "lt"
    · rw [if_neg (not_not_intro hA)]
      obtain ⟨t, ht⟩ := tileFromXYRaw_ok tp x y z e
      rw [ht]
      refine ⟨⟨fun hc => Except.noConfusion hc, fun hc => absurd hc hO⟩,
        fun _ => ⟨fun hc => Except.noConfusion hc, fun hc => absurd hA hc⟩,
        fun _ _ => ⟨t, rfl⟩⟩
    · rw [if_pos hA]
      refine ⟨⟨fun hc => ?_, fun hc => absurd hc hO⟩,
        fun _ => ⟨fun _ => hA, fun _ => rfl⟩,
        fun _ hAA => absurd hAA hA⟩
      · injection hc with hc
        cases hc

/-- Witness for C5: on the 1x1 pyramid, `(5,1)` is out of bounds, an
invalid edge code is rejected at an inner point, and `(1,1)` resolves to
one tile. -/
theorem C5_tile_from_xy_spec_witness :
    tpUnit.tile_from_xy 5 1 ((0 : Nat) : Rat) "rb" = .error .outOfBounds ∧
    tpUnit.tile_from_xy 1 1 ((0 : Nat) : Rat) "xx" = .error .invalidArgument ∧
    ∃ t : Tile, tpUnit.tile_from_xy 1 1 ((0 : Nat) : Rat) "rb" = .ok t :=
  ⟨(C5_tile_from_xy_spec tpUnit 5 1 0 "rb").1.mpr (by decide),
   ((C5_tile_from_xy_spec tpUnit 1 1 0 "xx").2.1 (by decide)).mpr (by decide),
   (C5_tile_from_xy_spec tpUnit 1 1 0 "rb").2.2 (by decide) (by decide)⟩

theorem exceptMapM_ok (tp : TilePyramid) (zq : Rat) (f : Rat × Rat → Tile) :
    ∀ l : List (Rat × Rat),
      (∀ p ∈ l, tp.tile_from_xy p.1 p.2 zq "rb" = .ok (f p)) →
      l.mapM (fun p => tp.tile_from_xy p.1 p.2 zq "rb") = .ok (l.map f)
  | [], _ => rfl
  | a :: l, h => by
    have ha := h a (List.mem_cons_self a l)
    have hl := exceptMapM_ok tp zq f l (fun p hp => h p (List.mem_cons_of_mem a hp))
    rw [List.mapM_cons, ha, exc_bind_ok, hl, exc_bind_ok, exc_pure, List.map_cons]

/-- C6: `tiles_from_geom` yields an empty sequence for an empty geometry,
fails with the invalid-geometry error for a non-empty invalid one, yields
the single `tile_from_xy` result for a Point, and one `tile_from_xy`
result per constituent point, in input order without deduplication, for a
MultiPoint. -/
theorem C6_tiles_from_geom_spec (tp : TilePyramid) (g : Geometry) (z : Nat) :
    (g.isEmpty = true → tp.tiles_from_geom g (z : Rat) = .ok []) ∧
    (g.isEmpty = false → g.isValid = false →
      tp.tiles_from_geom g (z : Rat) = .error .invalidGeometry) ∧
    (∀ (x y : Rat) (t : Tile), g.isEmpty = false → g.isValid = true →
      g.kind = .point x y → tp.tile_from_xy x y (z : Rat) "rb" = .ok t →
      tp.tiles_from_geom g (z : Rat) = .ok [t]) ∧
    (∀ (pts : List (Rat × Rat)) (f : Rat × Rat → Tile),
      g.isEmpty = false → g.isValid = true → g.kind = .multiPoint pts →
      (∀ p ∈ pts, tp.tile_from_xy p.1 p.2 (z : Rat) "rb" = .ok (f p)) →
      tp.tiles_from_geom g (z : Rat) = .ok (pts.map f)) := by
  refine ⟨?_, ?_, ?_, ?_⟩
  · intro hE
    simp only [TilePyramid.tiles_from_geom, validate_zoom_natCast, exc_bind_ok,
      hE, if_true, exc_pure]
  · intro hE hV
    simp only [TilePyramid.tiles_from_geom, validate_zoom_natCast, exc_bind_ok,
      hE, hV]
    rfl
  · intro x y t hE hV hk ht
    simp only [TilePyramid.tiles_from_geom, validate_zoom_natCast, exc_bind_ok,
      hE, hV, hk]
    rw [if_neg (by simp), if_neg (by simp)]
    rw [ht, exc_bind_ok, exc_pure]
  · intro pts f hE hV hk hall
    simp only [TilePyramid.tiles_from_geom, validate_zoom_natCast, exc_bind_ok,
      hE, hV, hk]
    rw [if_neg (by simp), if_neg (by simp)]
    exact exceptMapM_ok tp (z : Rat) f pts hall

/-- Witness for C6: a MultiPoint with a duplicated point yields the same
tile twice (no deduplication). -/
theorem C6_tiles_from_geom_spec_witness :
    tpUnit.tiles_from_geom gMPt ((0 : Nat) : Rat) = .ok [tileUnit00, tileUnit00] :=
  (C6_tiles_from_geom_spec tpUnit gMPt 0).2.2.2 [(1, 1), (1, 1)]
    (fun _ => tileUnit00) rfl rfl rfl (by decide)

/-- C7: `tiles_from_bounds` fails with the invalid-zoom error on a
negative or non-integer zoom; at a valid zoom it fails with the
invalid-argument error exactly when `bounds` is not a tuple of exactly 4
values, and succeeds on a 4-value tuple. -/
theorem C7_tiles_from_bounds_validation (tp : TilePyramid) (arg : BoundsArg)
    (z : Nat) :
    (∀ zq : Rat, zq < 0 ∨ zq.den ≠ 1 →
      tp.tiles_from_bounds arg zq = .error .invalidZoom) ∧
    (tp.tiles_from_bounds arg (z : Rat) = .error .invalidArgument ↔
      (arg = .notATuple ∨ ∃ vs, arg = .tuple vs ∧ vs.length ≠ 4)) ∧
    (∀ vs, arg = .tuple vs → vs.length = 4 →
      ∃ ts : List Tile, tp.tiles_from_bounds arg (z : Rat) = .ok ts) := by
  refine ⟨?_, ?_, ?_⟩
  · intro zq hq
    simp only [TilePyramid.tiles_from_bounds, validate_zoom_invalid zq hq,
      exc_bind_err]
  · cases arg with
    | notATuple =>
      simp only [TilePyramid.tiles_from_bounds, validate_zoom_natCast, exc_bind_ok]
      simp
    | tuple vs =>
      simp only [TilePyramid.tiles_from_bounds, validate_zoom_natCast, exc_bind_ok]
      by_cases hl : vs.length = 4
      · rw [if_pos hl]
        have hok : ∃ ts : List Tile,
            (if tp.is_global then
              globalTilesFromBounds tp ⟨vs[0]!, vs[1]!, vs[2]!, vs[3]!⟩ (z : Rat)
            else
              tilesFromCleanedBounds tp ⟨vs[0]!, vs[1]!, vs[2]!, vs[3]!⟩ (z : Rat))
            = .ok ts := by
          by_cases hgl : tp.is_global = true
          · rw [if_pos hgl]
            exact globalTilesFromBounds_ok tp _ z
          · rw [if_neg hgl]
            exact tilesFromCleanedBounds_ok tp _ z
        obtain ⟨ts, hts⟩ := hok
        rw [hts]
        constructor
        · intro hc
          cases hc
        · rintro (hc | ⟨vs2, heq, hne⟩)
          · cases hc
          · injection heq with heq
            subst heq
            exact absurd hl hne
      · rw [if_neg hl]
        exact ⟨fun _ => Or.inr ⟨vs, rfl, hl⟩, fun _ => rfl⟩
  · intro vs harg hlen
    subst harg
    simp only [TilePyramid.tiles_from_bounds, validate_zoom_natCast, exc_bind_ok,
      if_pos hlen]
    by_cases hgl : tp.is_global = true
    · rw [if_pos hgl]
      exact globalTilesFromBounds_ok tp _ z
    · rw [if_neg hgl]
      exact tilesFromCleanedBounds_ok tp _ z

/-- Witness for C7: a non-tuple argument and a 3-tuple are rejected at a
valid zoom, a negative zoom is rejected, and a proper 4-tuple succeeds. -/
theorem C7_tiles_from_bounds_validation_witness :
    tpUnit.tiles_from_bounds .notATuple ((0 : Nat) : Rat) = .error .invalidArgument ∧
    tpUnit.tiles_from_bounds (.tuple [0, 0, 1]) ((0 : Nat) : Rat) = .error .invalidArgument ∧
    tpUnit.tiles_from_bounds (.tuple [0, 0, 1, 1]) (-1 : Rat) = .error .invalidZoom ∧
    ∃ ts : List Tile, tpUnit.tiles_from_bounds (.tuple [0, 0, 1, 1]) ((0 : Nat) : Rat) = .ok ts :=
  ⟨(C7_tiles_from_bounds_validation tpUnit .notATuple 0).2.1.mpr (Or.inl rfl),
   (C7_tiles_from_bounds_validation tpUnit (.tuple [0, 0, 1]) 0).2.1.mpr
     (Or.inr ⟨[0, 0, 1], rfl, by decide⟩),
   (C7_tiles_from_bounds_validation tpUnit (.tuple [0, 0, 1, 1]) 0).1 (-1)
     (Or.inl (by norm_num)),
   (C7_tiles_from_bounds_validation tpUnit (.tuple [0, 0, 1, 1]) 0).2.2
     [0, 0, 1, 1] rfl rfl⟩

/-- C8: TilePyramid equality is structural over
`(grid, tile_size, metatiling)`: two pyramids built from the same
configuration are equal under `__eq__` and hash identically; any two
`__eq__`-equal pyramids have equal representations and hashes; the
representation string is non-empty and deterministic. -/
theorem C8_eq_hash_repr (gi : GridInput) (ts m : Nat) (tp tq : TilePyramid)
    (h1 : TilePyramid.init (some gi) ts m = .ok tp)
    (h2 : TilePyramid.init (some gi) ts m = .ok tq) :
    tp.eq tq = true ∧ tp.pyHash = tq.pyHash ∧ tp.reprStr ≠ "" ∧
    (∀ a b : TilePyramid, a.eq b = true →
      a.reprStr = b.reprStr ∧ a.pyHash = b.pyHash) := by
  have hdet : tp = tq := by
    rw [h1] at h2
    cases h2
    rfl
  subst hdet
  have key : ∀ a b : TilePyramid, a.eq b = true →
      a.reprStr = b.reprStr ∧ a.pyHash = b.pyHash := by
    intro a b hab
    simp only [TilePyramid.eq, Bool.and_eq_true, beq_iff_eq] at hab
    obtain ⟨⟨hg, hts⟩, hm⟩ := hab
    constructor
    · simp only [TilePyramid.reprStr, hg, hts, hm]
    · simp only [TilePyramid.pyHash, TilePyramid.reprStr, hg, hts, hm]
  refine ⟨by simp [TilePyramid.eq], rfl, ?_, key⟩
  intro hemp
  have hl := congrArg String.length hemp
  simp only [TilePyramid.reprStr, String.length_append] at hl
  have h12 : "TilePyramid(".length = 12 := by decide
  rw [h12] at hl
  simp at hl

/-- Witness for C8: the concrete 1x1 pyramid is `__eq__`-equal to itself
and its representation is non-empty. -/
theorem C8_eq_hash_repr_witness :
    tpUnit.eq tpUnit = true ∧ tpUnit.reprStr ≠ "" :=
  ⟨(C8_eq_hash_repr (.dict gUnit) 256 1 tpUnit tpUnit (by decide) (by decide)).1,
   (C8_eq_hash_repr (.dict gUnit) 256 1 tpUnit tpUnit (by decide) (by decide)).2.2.1⟩

/-- C10 (implicit): `tiles_from_geom` on a valid, non-empty geometry
whose kind is none of the seven dispatched kinds yields an empty
sequence silently, without raising any error. -/
theorem C10_tiles_from_geom_unknown_kind (tp : TilePyramid) (g : Geometry)
    (z : Nat) (s : String) (hk : g.kind = .other s)
    (hs : ¬(s = "Point" ∨ s = "MultiPoint" ∨ s = "LineString" ∨
      s = "MultiLineString" ∨ s = "Polygon" ∨ s = "MultiPolygon" ∨
      s = "GeometryCollection"))
    (hne : g.isEmpty = false) (hv : g.isValid = true) :
    tp.tiles_from_geom g (z : Rat) = .ok [] := by
  simp only [TilePyramid.tiles_from_geom, validate_zoom_natCast, exc_bind_ok,
    hne, hv, hk]
  rw [if_neg (by simp), if_neg (by simp)]
  rw [if_neg (by tauto)]
  rfl

/-- Witness for C10: a valid non-empty LinearRing yields the empty list. -/
theorem C10_tiles_from_geom_unknown_kind_witness :
    tpUnit.tiles_from_geom gRing ((0 : Nat) : Rat) = .ok [] :=
  C10_tiles_from_geom_unknown_kind tpUnit gRing 0 "LinearRing" rfl (by decide)
    rfl rfl

end Tilematrix
